import Mathlib

/-!
Shallow embedding of the wgpu_wrapper repository (src/buffers.rs,
src/vertex.rs, src/state.rs, src/main.rs) for verification of its
specification.  GPU-API handles (device, surface, textures) are modelled
as plain records; device calls that create resources are modelled as pure
constructions of the descriptors they receive; per-frame command recording
is modelled as the list of commands issued.
-/

/-! ## wgpu API model (external collaborator, black box per the spec) -/

namespace Wgpu

/-- wgpu::IndexFormat. -/
inductive IndexFormat
  | Uint16
  | Uint32
deriving DecidableEq, Repr

/-- wgpu::ShaderStages (a bitflag set; modelled as three booleans). -/
structure ShaderStages where
  vertex : Bool
  fragment : Bool
  compute : Bool
deriving DecidableEq, Repr

/-- wgpu::BindingType, reduced to its closed set of variants; claims never
inspect the per-variant payload. -/
inductive BindingType
  | buffer
  | sampler
  | texture
  | storageTexture
deriving DecidableEq, Repr

/-- wgpu::BufferUsages, reduced to the variants used by the crate. -/
inductive BufferUsages
  | VERTEX
  | INDEX
  | UNIFORM
deriving DecidableEq, Repr

/-- A device-resident buffer handle: what is observable of the buffer the
device creates from a BufferInitDescriptor (label, byte length, usage). -/
structure GpuBuffer where
  label : Option String
  byteLen : Nat
  usage : BufferUsages
deriving DecidableEq, Repr

/-- wgpu::util::BufferInitDescriptor; contents is the raw byte sequence
(bytes as Nat < 256). -/
structure BufferInitDescriptor where
  label : Option String
  contents : List Nat
  usage : BufferUsages

/-- wgpu::BindGroupLayoutEntry: the per-binding record the device receives
when a layout is created. -/
structure BindGroupLayoutEntry where
  binding : Nat
  visibility : ShaderStages
  ty : BindingType
  count : Option Nat
deriving DecidableEq, Repr

/-- wgpu::BindGroupLayout handle: entries and label as passed at creation. -/
structure BindGroupLayout where
  label : Option String
  entries : List BindGroupLayoutEntry
deriving DecidableEq, Repr

/-- wgpu::BindGroupEntry: binding index paired with its resource
(as_entire_binding exposes the whole buffer). -/
structure BindGroupEntry where
  binding : Nat
  resource : GpuBuffer
deriving DecidableEq, Repr

/-- wgpu::BindGroup handle: entries and label as passed at creation. -/
structure BindGroup where
  label : Option String
  entries : List BindGroupEntry
deriving DecidableEq, Repr

/-- wgpu::Device, an opaque handle. -/
structure Device where
  id : Nat := 0
deriving DecidableEq, Repr

/-- device.create_buffer_init: returns a device buffer whose byte length is
exactly the length of the supplied contents. -/
def Device.create_buffer_init (_d : Device) (desc : BufferInitDescriptor) : GpuBuffer :=
  { label := desc.label, byteLen := desc.contents.length, usage := desc.usage }

/-- device.create_bind_group_layout: the handle records the descriptor. -/
def Device.create_bind_group_layout (_d : Device) (label : Option String)
    (entries : List BindGroupLayoutEntry) : BindGroupLayout :=
  { label := label, entries := entries }

/-- device.create_bind_group: the handle records the descriptor entries and
label.  (In the source the descriptor also names a layout; the produced
handle does not expose it, so it is not recorded here.) -/
def Device.create_bind_group (_d : Device) (label : Option String)
    (entries : List BindGroupEntry) : BindGroup :=
  { label := label, entries := entries }

/-- wgpu::SurfaceError (closed set of acquisition failures). -/
inductive SurfaceError
  | timeout
  | outdated
  | lost
  | outOfMemory
deriving DecidableEq, Repr

/-- wgpu::SurfaceTexture, an opaque handle for an acquired frame. -/
structure SurfaceTexture where
  id : Nat := 0
deriving DecidableEq, Repr

/-- wgpu::SurfaceConfiguration, reduced to the fields the crate reads or
writes (width, height) plus the format chosen at startup; the remaining
fields are never touched after get_default_config. -/
structure SurfaceConfiguration where
  width : Nat
  height : Nat
  format : Nat
deriving DecidableEq, Repr

/-- surface.get_default_config(adapter, w, h): yields a configuration whose
width and height are exactly the supplied dimensions, with the default
surface format. -/
def getDefaultConfig (w h : Nat) : SurfaceConfiguration :=
  { width := w, height := h, format := 0 }

end Wgpu

/-! ## src/vertex.rs -/

/-- Vertex { position: [f32; 3], color: [f32; 3] } (src/vertex.rs). -/
structure Vertex where
  position : Float × Float × Float
  color : Float × Float × Float

/-- Byte width of one f32. -/
def F32_SIZE : Nat := 4

/-- size_of::<Vertex>(): six f32 fields, repr(C), no padding. -/
def Vertex.sizeOf : Nat := 6 * F32_SIZE

/-- bytemuck encoding of one Vertex.  The Pod layout guarantees exactly
Vertex.sizeOf bytes per record; no claim observes the byte values, only
the count, so the IEEE-754 images are not computed bitwise here. -/
def Vertex.toBytes (_v : Vertex) : List Nat := List.replicate Vertex.sizeOf 0

/-- VERTICES: the quad corners (src/vertex.rs, lines 19-36). -/
def VERTICES : List Vertex :=
  [ { position := (-1.0, 1.0, 0.0), color := (0.0, 1.0, 0.0) },
    { position := (-1.0, -1.0, 0.0), color := (0.0, 0.0, 0.0) },
    { position := (1.0, -1.0, 0.0), color := (1.0, 0.0, 0.0) },
    { position := (1.0, 1.0, 0.0), color := (1.0, 1.0, 0.0) } ]

/-- INDICES: &[u16] = [0, 1, 2, 0, 2, 3] (src/vertex.rs, lines 37-41);
values as Nat, u16-ness asserted separately. -/
def INDICES : List Nat := [0, 1, 2, 0, 2, 3]

/-! ## src/buffers.rs -/

/-- bytemuck::cast_slice: the bytes of a Pod slice are the concatenation of
the bytes of its elements, in order. -/
def castSlice {T : Type} (enc : T → List Nat) (xs : List T) : List Nat :=
  (xs.map enc).flatten

/-- VertexBuffer (src/buffers.rs, lines 30-43); generic over the Pod record
type, with enc its bytemuck byte encoding. -/
structure VertexBuffer where
  buffer : Wgpu.GpuBuffer
deriving DecidableEq, Repr

/-- VertexBuffer::new (src/buffers.rs, lines 34-43). -/
def VertexBuffer.new {T : Type} (device : Wgpu.Device) (enc : T → List Nat)
    (vertices : List T) : VertexBuffer :=
  { buffer := device.create_buffer_init
      { label := some "Vertex Buffer"
        contents := castSlice enc vertices
        usage := .VERTEX } }

/-- The closed set of element types implementing the private FormatDetect
trait (src/buffers.rs, lines 45-57): only u16 and u32. -/
inductive IndexElem
  | u16
  | u32
deriving DecidableEq, Repr

/-- FormatDetect::to_index_format for each implementing type. -/
def IndexElem.to_index_format : IndexElem → Wgpu.IndexFormat
  | .u16 => .Uint16
  | .u32 => .Uint32

/-- size_of of the index element type. -/
def IndexElem.byteWidth : IndexElem → Nat
  | .u16 => 2
  | .u32 => 4

/-- Little-endian byte image of an unsigned integer of w bytes. -/
def uintBytes (w n : Nat) : List Nat :=
  (List.range w).map fun i => n / 256 ^ i % 256

/-- IndexBuffer (src/buffers.rs, lines 58-61). -/
structure IndexBuffer where
  buffer : Wgpu.GpuBuffer
  format : Wgpu.IndexFormat
deriving DecidableEq, Repr

/-- IndexBuffer::new (src/buffers.rs, lines 62-75): uploads the cast bytes
and records T::to_index_format() as the format tag. -/
def IndexBuffer.new (device : Wgpu.Device) (T : IndexElem)
    (indices : List Nat) : IndexBuffer :=
  { buffer := device.create_buffer_init
      { label := some "Index Buffer"
        contents := castSlice (uintBytes T.byteWidth) indices
        usage := .INDEX }
    format := T.to_index_format }

/-- The crate-private BindGroupLayoutEntry (src/buffers.rs, lines 77-90):
like wgpu's but without a binding index, which to_wgpu supplies. -/
structure BindGroupLayoutEntry where
  visibility : Wgpu.ShaderStages
  ty : Wgpu.BindingType
  count : Option Nat
deriving DecidableEq, Repr

/-- BindGroupLayoutEntry::to_wgpu (src/buffers.rs, lines 91-101). -/
def BindGroupLayoutEntry.to_wgpu (e : BindGroupLayoutEntry) (binding : Nat) :
    Wgpu.BindGroupLayoutEntry :=
  { binding := binding, visibility := e.visibility, ty := e.ty, count := e.count }

/-- BindGroupEntry (src/buffers.rs, lines 102-105). -/
structure BindGroupEntry where
  buffer : Wgpu.GpuBuffer
  layout : BindGroupLayoutEntry
deriving DecidableEq, Repr

/-- The BindGroup builder (src/buffers.rs, lines 106-113).  The source also
declares a field layout: wgpu::BindGroupLayout, but BindGroup::new never
initializes it and no method reads it, so it is omitted. -/
structure BindGroup where
  label : String
  entries : List BindGroupEntry
  entry_labels : List String
  entry_layout : List Wgpu.BindGroupLayoutEntry
deriving DecidableEq, Repr

/-- BindGroup::new (src/buffers.rs, lines 115-124). -/
def BindGroup.new (label : String) : BindGroup :=
  { label := label, entries := [], entry_labels := [], entry_layout := [] }

/-- BindGroup::insert (src/buffers.rs, lines 125-131).  The source pushes
the entry first and only then reads self.entries.len(), so the layout
entry for the i-th insertion (0-based) is tagged with binding i + 1. -/
def BindGroup.insert (self : BindGroup) (label : String) (entry : BindGroupEntry) :
    BindGroup :=
  let entries := self.entries ++ [entry]
  { self with
    entries := entries
    entry_labels := self.entry_labels ++ [label]
    entry_layout := self.entry_layout ++ [entry.layout.to_wgpu entries.length] }

/-- BindGroup::bind_group_layouts (src/buffers.rs, lines 133-138). -/
def BindGroup.bind_group_layouts (self : BindGroup) (device : Wgpu.Device) :
    Wgpu.BindGroupLayout :=
  device.create_bind_group_layout (some (self.label ++ "_layout")) self.entry_layout

/-- BindGroup::bind_group (src/buffers.rs, lines 139-154): pairs each entry
with its 0-based position via enumerate.  (The layout argument of the
device call is the undefined identifier bind_group_layout in the source;
the produced handle does not expose a layout, so nothing is recorded.) -/
def BindGroup.bind_group (self : BindGroup) (device : Wgpu.Device) : Wgpu.BindGroup :=
  let entries := self.entries.enum.map fun p =>
    Wgpu.BindGroupEntry.mk p.1 p.2.buffer
  device.create_bind_group (some self.label) entries

/-- The finalize step of the spec: the paired layout and binding-set
creation, i.e. bind_group_layouts and bind_group on the same builder. -/
def BindGroup.finalize (self : BindGroup) (device : Wgpu.Device) :
    Wgpu.BindGroupLayout × Wgpu.BindGroup :=
  (self.bind_group_layouts device, self.bind_group device)

/-- Two successive finalize calls on the same builder, as the source allows
(both methods borrow the builder immutably; nothing records a state). -/
def BindGroup.finalizeTwice (self : BindGroup) (device : Wgpu.Device) :
    (Wgpu.BindGroupLayout × Wgpu.BindGroup) × (Wgpu.BindGroupLayout × Wgpu.BindGroup) :=
  (self.finalize device, self.finalize device)

/-- Buffers (src/buffers.rs, lines 7-11). -/
structure Buffers where
  vertex : VertexBuffer
  index : IndexBuffer
  bind_groups : List BindGroup

/-- Buffers::new (src/buffers.rs, lines 14-23). -/
def Buffers.new (device : Wgpu.Device) : Buffers :=
  { vertex := VertexBuffer.new device Vertex.toBytes VERTICES
    index := IndexBuffer.new device .u16 INDICES
    bind_groups := [] }

/-- Buffers::bind_group (src/buffers.rs, lines 24-27): pushes its argument
onto bind_groups and returns the updated value. -/
def Buffers.bind_group (self : Buffers) (bg : BindGroup) : Buffers :=
  { self with bind_groups := self.bind_groups ++ [bg] }

/-- Binding indices of a layout, in entry order. -/
def layoutBindings (l : Wgpu.BindGroupLayout) : List Nat :=
  l.entries.map (·.binding)

/-- Binding indices of a binding set, in entry order. -/
def groupBindings (g : Wgpu.BindGroup) : List Nat :=
  g.entries.map (·.binding)

/-! ## src/state.rs -/

/-- winit::dpi::PhysicalSize<u32>. -/
structure PhysicalSize where
  width : Nat
  height : Nat
deriving DecidableEq, Repr

/-- State (src/state.rs, lines 10-21), reduced to the fields the claims
observe; surface, device, queue, window and render_pipeline are opaque
handles.  reconfigureCount counts surface.configure calls so that
"no reconfiguration attempted" is observable. -/
structure State where
  config : Wgpu.SurfaceConfiguration
  size : PhysicalSize
  buffers : Buffers
  reconfigureCount : Nat

/-- State::new (src/state.rs, lines 25-131): size from the window, config
from get_default_config(adapter, size.width, size.height), one
surface.configure call, buffers from Buffers::new. -/
def State.new (windowSize : PhysicalSize) (device : Wgpu.Device) : State :=
  { config := Wgpu.getDefaultConfig windowSize.width windowSize.height
    size := windowSize
    buffers := Buffers.new device
    reconfigureCount := 1 }

/-- State::resize (src/state.rs, lines 136-143). -/
def State.resize (self : State) (new_size : PhysicalSize) : State :=
  if 0 < new_size.width ∧ 0 < new_size.height then
    { self with
      size := new_size
      config := { self.config with width := new_size.width, height := new_size.height }
      reconfigureCount := self.reconfigureCount + 1 }
  else
    self

/-- Commands recorded inside the render pass (src/state.rs, lines 153-199);
drawIndexed carries the index count, base vertex and instance count of
draw_indexed(0..n, 0, 0..1). -/
inductive RenderCommand
  | setPipeline
  | setVertexBuffer (slot : Nat)
  | setIndexBuffer (format : Wgpu.IndexFormat)
  | drawIndexed (indexCount : Nat) (baseVertex : Int) (instanceCount : Nat)
deriving DecidableEq, Repr

/-- State::render (src/state.rs, lines 153-199): the surface acquisition
result is passed in; on failure the ? operator propagates the error, on
success the recorded pass issues the fixed command sequence and the
function returns Ok. -/
def State.render (self : State)
    (acquired : Except Wgpu.SurfaceError Wgpu.SurfaceTexture) :
    Except Wgpu.SurfaceError (List RenderCommand) :=
  match acquired with
  | .error e => .error e
  | .ok _ =>
      .ok [ .setPipeline
          , .setVertexBuffer 0
          , .setIndexBuffer self.buffers.index.format
          , .drawIndexed INDICES.length 0 1 ]

/-- The indexed draw calls of a command list, as (indexCount, baseVertex,
instanceCount) triples. -/
def drawCalls (cmds : List RenderCommand) : List (Nat × Int × Nat) :=
  cmds.filterMap fun c =>
    match c with
    | .drawIndexed ic bv inst => some (ic, bv, inst)
    | _ => none

/-- The size/config agreement invariant of State (claim C10). -/
def State.sizeConfigAgree (s : State) : Prop :=
  s.size.width = s.config.width ∧ s.size.height = s.config.height

instance (s : State) : Decidable s.sizeConfigAgree := by
  unfold State.sizeConfigAgree
  infer_instance

/-! ## Concrete fixtures shared by several closed theorems -/

/-- A concrete uniform buffer for builder examples. -/
def sampleBuffer : Wgpu.GpuBuffer :=
  { label := some "b", byteLen := 16, usage := .UNIFORM }

/-- A concrete builder entry: vertex-visible buffer binding, no array. -/
def sampleEntry : BindGroupEntry :=
  { buffer := sampleBuffer
    layout :=
      { visibility := { vertex := true, fragment := false, compute := false }
        ty := .buffer
        count := none } }

/-- A builder holding exactly one inserted entry. -/
def oneEntryBuilder : BindGroup := (BindGroup.new "g").insert "a" sampleEntry

/-! ## Theorems -/

/-- Claim C1 (code_bug).  The claim says the i-th inserted entry carries
binding index i in both the layout and the binding set.  The code reads
self.entries.len() after the push, so on a builder with one inserted
entry the layout entry carries binding 1 while the binding set entry
carries binding 0: the two binding-index sequences differ. -/
theorem bindGroup_binding_indices_disagree :
    layoutBindings (oneEntryBuilder.bind_group_layouts {}) = [1] ∧
    groupBindings (oneEntryBuilder.bind_group {}) = [0] :=
  ⟨rfl, rfl⟩

/-- Claim C2 (counterexample).  Finalizing a builder with zero inserted
entries is not rejected: it produces exactly the empty layout/binding-set
pair, contradicting the claim that no such pair is produced. -/
theorem bindGroup_finalize_empty_produces_empty_pair :
    (BindGroup.new "g").finalize {} =
      ({ label := some "g_layout", entries := [] },
       { label := some "g", entries := [] }) :=
  rfl

/-- Claim C2 (amended).  For every label and device, finalizing a builder
with zero inserted entries succeeds and yields a layout and a binding set
whose entry lists are both empty. -/
theorem bindGroup_finalize_empty_not_rejected (label : String) (dev : Wgpu.Device) :
    (BindGroup.new label).finalize dev =
      ({ label := some (label ++ "_layout"), entries := [] },
       { label := some label, entries := [] }) :=
  rfl

/-- Claim C3 (counterexample).  On a builder with one inserted entry, the
second of two finalize calls is not rejected: it returns the same
one-entry layout/binding-set pair as the first call. -/
theorem bindGroup_finalize_twice_second_succeeds :
    (oneEntryBuilder.finalizeTwice {}).2 = oneEntryBuilder.finalize {} ∧
    (oneEntryBuilder.finalizeTwice {}).2.2.entries.length = 1 :=
  ⟨rfl, rfl⟩

/-- Claim C3 (amended).  The builder records no Empty/Accumulating/Finalized
state: both finalize methods borrow the builder immutably and return
unconditionally, so a second finalize call on the same builder is not
rejected and yields exactly the pair of the first call. -/
theorem bindGroup_finalize_stateless (b : BindGroup) (dev : Wgpu.Device) :
    (b.finalizeTwice dev).2 = (b.finalizeTwice dev).1 ∧
    (b.finalizeTwice dev).2.2.entries.length = b.entries.length := by
  refine ⟨rfl, ?_⟩
  simp [BindGroup.finalizeTwice, BindGroup.finalize, BindGroup.bind_group,
    Wgpu.Device.create_bind_group]

/-- Claim C4 (confirmed).  A resize with width 0 or height 0 leaves the
state completely unchanged (stored size, whole surface configuration, and
reconfiguration count); a resize with strictly positive dimensions sets
the stored size and the configuration's width and height to the new
values, leaves the rest of the configuration intact, and performs exactly
one surface reconfiguration. -/
theorem state_resize_spec (s : State) (n : PhysicalSize) :
    (n.width = 0 ∨ n.height = 0 → s.resize n = s) ∧
    (0 < n.width → 0 < n.height →
      (s.resize n).size = n ∧
      (s.resize n).config.width = n.width ∧
      (s.resize n).config.height = n.height ∧
      (s.resize n).config.format = s.config.format ∧
      (s.resize n).reconfigureCount = s.reconfigureCount + 1) := by
  constructor
  · intro h
    unfold State.resize
    rw [if_neg]
    rintro ⟨h1, h2⟩
    rcases h with h | h <;> omega
  · intro hw hh
    unfold State.resize
    rw [if_pos ⟨hw, hh⟩]
    exact ⟨rfl, rfl, rfl, rfl, rfl⟩

/-- Witness for state_resize_spec at concrete inputs: a 0-width resize is a
no-op and a positive resize stores the new size. -/
theorem state_resize_spec_witness :
    ((State.new ⟨4, 3⟩ {}).resize ⟨0, 5⟩ = State.new ⟨4, 3⟩ {}) ∧
    ((State.new ⟨4, 3⟩ {}).resize ⟨7, 9⟩).size = ⟨7, 9⟩ :=
  ⟨(state_resize_spec (State.new ⟨4, 3⟩ {}) ⟨0, 5⟩).1 (Or.inl rfl),
   ((state_resize_spec (State.new ⟨4, 3⟩ {}) ⟨7, 9⟩).2 (by decide) (by decide)).1⟩

/-- Claim C5 (confirmed).  For every device and every index sequence,
including the single-element one, an IndexBuffer built from u16 elements
records the 16-bit format tag and one built from u32 elements records the
32-bit format tag. -/
theorem indexBuffer_format_matches_element_type
    (dev : Wgpu.Device) (indices : List Nat) :
    (IndexBuffer.new dev .u16 indices).format = .Uint16 ∧
    (IndexBuffer.new dev .u32 indices).format = .Uint32 :=
  ⟨rfl, rfl⟩

/-- Claim C6 (confirmed).  When surface acquisition succeeds, render returns
Ok and the recorded command list contains exactly one indexed draw, with
index count INDICES.length = 6, base vertex 0 and instance count 1. -/
theorem state_render_single_indexed_draw (s : State) (t : Wgpu.SurfaceTexture) :
    ∃ cmds, s.render (.ok t) = .ok cmds ∧
      drawCalls cmds = [(6, 0, 1)] ∧ INDICES.length = 6 :=
  ⟨_, rfl, rfl, rfl⟩

/-- Length of a cast Pod slice: with every record encoding to stride bytes,
the concatenation has count * stride bytes. -/
theorem castSlice_length {T : Type} (enc : T → List Nat) (stride : Nat)
    (hpod : ∀ v, (enc v).length = stride) (xs : List T) :
    (castSlice enc xs).length = xs.length * stride := by
  induction xs with
  | nil => simp [castSlice]
  | cons x xs ih =>
      simp only [castSlice, List.map_cons, List.flatten_cons,
        List.length_append, List.length_cons] at *
      rw [hpod, ih, Nat.succ_mul, Nat.add_comm]

/-- Claim C7 (confirmed).  For every non-empty record sequence whose Pod
encoding has a fixed byte stride, the device buffer created by
VertexBuffer::new has byte length record count times stride. -/
theorem vertexBuffer_byteLen_eq_count_mul_stride
    (T : Type) (dev : Wgpu.Device) (enc : T → List Nat) (stride : Nat)
    (hpod : ∀ v, (enc v).length = stride) (vs : List T) (_hne : vs ≠ []) :
    (VertexBuffer.new dev enc vs).buffer.byteLen = vs.length * stride := by
  show (castSlice enc vs).length = vs.length * stride
  exact castSlice_length enc stride hpod vs

/-- Witness for vertexBuffer_byteLen_eq_count_mul_stride: two u16-like
records of stride 2 give a 4-byte buffer. -/
theorem vertexBuffer_byteLen_witness :
    ([(7 : Nat), 300] ≠ ([] : List Nat)) ∧
    (VertexBuffer.new ({} : Wgpu.Device)
        (fun n : Nat => [n % 256, n / 256]) [7, 300]).buffer.byteLen =
      [(7 : Nat), 300].length * 2 :=
  ⟨by decide,
   vertexBuffer_byteLen_eq_count_mul_stride Nat {}
     (fun n : Nat => [n % 256, n / 256]) 2 (fun _ => rfl) [7, 300] (by decide)⟩

/-- Claim C8 (counterexample).  Buffers::bind_group does attach its argument:
on the freshly built Buffers value, the returned bind_groups list contains
the pushed group, contradicting the claim that it never does. -/
theorem buffers_bind_group_attaches_argument :
    BindGroup.new "g" ∈
      ((Buffers.new {}).bind_group (BindGroup.new "g")).bind_groups := by
  simp [Buffers.new, Buffers.bind_group]

/-- Claim C8 (amended).  For every Buffers value and every bind group, the
bind_group builder method appends its argument to the bind_groups
collection, so the result does contain it. -/
theorem buffers_bind_group_appends_argument (b : Buffers) (g : BindGroup) :
    (b.bind_group g).bind_groups = b.bind_groups ++ [g] :=
  rfl

/-- Claim C9 (confirmed).  The static quad mesh satisfies the mesh
invariant: VERTICES has length 4, and every value of INDICES is strictly
below that length and fits in an unsigned 16-bit integer. -/
theorem quad_mesh_index_invariant :
    VERTICES.length = 4 ∧ ∀ i ∈ INDICES, i < VERTICES.length ∧ i < 2 ^ 16 := by
  refine ⟨rfl, ?_⟩
  intro i hi
  have h4 : VERTICES.length = 4 := rfl
  rw [h4]
  fin_cases hi <;> exact ⟨by decide, by decide⟩

/-- Claim C10 (confirmed).  After State construction the stored size and
the surface configuration agree in width and height, and every resize
call preserves that agreement. -/
theorem state_size_config_agreement :
    (∀ (ws : PhysicalSize) (dev : Wgpu.Device),
      (State.new ws dev).sizeConfigAgree) ∧
    (∀ (s : State) (n : PhysicalSize),
      s.sizeConfigAgree → (s.resize n).sizeConfigAgree) := by
  constructor
  · intro ws dev
    exact ⟨rfl, rfl⟩
  · intro s n h
    unfold State.resize
    split
    · exact ⟨rfl, rfl⟩
    · exact h

/-- Witness for state_size_config_agreement at concrete inputs: the
invariant holds after construction at size 5 by 6 and after a subsequent
resize to 7 by 8. -/
theorem state_size_config_agreement_witness :
    (State.new ⟨5, 6⟩ {}).sizeConfigAgree ∧
    ((State.new ⟨5, 6⟩ {}).resize ⟨7, 8⟩).sizeConfigAgree :=
  ⟨state_size_config_agreement.1 ⟨5, 6⟩ {},
   state_size_config_agreement.2 (State.new ⟨5, 6⟩ {}) ⟨7, 8⟩ ⟨rfl, rfl⟩⟩
